import Mathlib

/-!
Verification of the coordinate-frame module of ctapipe
(src/ctapipe/coordinates/angular_frames.py).

The module is embedded shallowly in three layers:

* a radian-value layer: the two trigonometric kernels altaz_to_offset and
  offset_to_altaz, and elementwise vectorised forms mirroring the numpy
  array path;
* a frame-attribute layer: the frame descriptor records (TelescopeFrame,
  NominalFrame, CameraFrame) with the attribute defaults of the source,
  and the six pairwise transform operators; a transform that dereferences
  an unset (None) pointing attribute raises in Python, modelled here as
  an Except error value;
* a unit layer: AngleQ quantities mirroring astropy unit handling (a value
  tagged radian or degree, trigonometry applied after conversion to
  radians) for the transforms whose unit conversions differ.

numpy.arctan2 is modelled by arctan2 below via Complex.arg, which agrees
with the C-library atan2 on all (non-signed-zero) real inputs, including
arctan2 0 0 = 0.
-/

open Real

/-- numpy.arctan2: the angle of the point (x, y), in (-π, π]; arctan2 0 0 = 0. -/
noncomputable def arctan2 (y x : ℝ) : ℝ := Complex.arg ⟨x, y⟩

/-- Kernel altaz_to_offset (angular_frames.py lines 134-177): offset of the
event direction (obj_azimuth, obj_altitude) relative to the reference
direction (azimuth, altitude), all in radians.  The intermediate names
mirror the source line by line. -/
noncomputable def altaz_to_offset (obj_azimuth obj_altitude azimuth altitude : ℝ) : ℝ × ℝ :=
  let diff_az := obj_azimuth - azimuth
  let cosine_obj_alt := cos obj_altitude
  let xp0 := -(cos diff_az) * cosine_obj_alt
  let yp0 := sin diff_az * cosine_obj_alt
  let zp0 := sin obj_altitude
  let sin_sys_alt := sin altitude
  let cos_sys_alt := cos altitude
  let xp1 := sin_sys_alt * xp0 + cos_sys_alt * zp0
  let yp1 := yp0
  let zp1 := -cos_sys_alt * xp0 + sin_sys_alt * zp0
  let disp := tan (arccos zp1)
  let alpha := arctan2 yp1 xp1
  (disp * cos alpha, disp * sin alpha)

/-- The general formula part of offset_to_altaz (lines 218-233), applied with
an offset magnitude that has already passed the zero-substitution step. -/
noncomputable def offset_to_altaz_core (x_off y_off altitude azimuth offset : ℝ) : ℝ × ℝ :=
  let atan_off := arctan offset
  let sin_atan_off := sin atan_off
  let xp1 := x_off * (sin_atan_off / offset)
  let yp1 := y_off * (sin_atan_off / offset)
  let zp1 := cos atan_off
  let sin_obj_alt := sin altitude
  let cos_obj_alt := cos altitude
  let xp0 := sin_obj_alt * xp1 - cos_obj_alt * zp1
  let yp0 := yp1
  let zp0 := cos_obj_alt * xp1 + sin_obj_alt * zp1
  (arcsin zp0, arctan2 yp0 (-xp0) + azimuth)

/-- Kernel offset_to_altaz (lines 180-251), scalar path, radian values: a
zero offset magnitude is replaced by 1e-14 before the general formula runs
and the corresponding result is then overwritten with the reference
direction.  Returns (altitude, azimuth), in the order of the source. -/
noncomputable def offset_to_altaz (x_off y_off altitude azimuth : ℝ) : ℝ × ℝ :=
  let offset0 := sqrt (x_off * x_off + y_off * y_off)
  let offset := if offset0 = 0 then 1e-14 else offset0
  let res := offset_to_altaz_core x_off y_off altitude azimuth offset
  if offset0 = 0 then (altitude, azimuth) else res

/-- Array path of offset_to_altaz: numpy computes each intermediate as an
array, substitutes 1e-14 at the positions where the offset magnitude is
exactly zero (only when at least one such position exists, line 212), and
finally overwrites the results at those positions with the reference
direction.  Inputs are paired elementwise as numpy broadcasting does. -/
noncomputable def offset_to_altaz_vec (x_off y_off : List ℝ) (altitude azimuth : ℝ) :
    List (ℝ × ℝ) :=
  let pts := x_off.zip y_off
  let offset0 := pts.map (fun p => sqrt (p.1 * p.1 + p.2 * p.2))
  let offset := if ∃ o ∈ offset0, o = 0 then
      offset0.map (fun o => if o = 0 then 1e-14 else o)
    else offset0
  let res := List.zipWith (fun (p : ℝ × ℝ) o => offset_to_altaz_core p.1 p.2 altitude azimuth o)
      pts offset
  if ∃ o ∈ offset0, o = 0 then
    List.zipWith (fun o r => if o = 0 then (altitude, azimuth) else r) offset0 res
  else res

/-- Array path of altaz_to_offset: every numpy operation in the function is
elementwise; the three staged arrays are the direction unit vectors, the
rotated vectors, and the projected offsets. -/
noncomputable def altaz_to_offset_vec (obj_azimuth obj_altitude : List ℝ) (azimuth altitude : ℝ) :
    List (ℝ × ℝ) :=
  let pts := obj_azimuth.zip obj_altitude
  let vec0 := pts.map (fun p =>
    (-(cos (p.1 - azimuth)) * cos p.2, sin (p.1 - azimuth) * cos p.2, sin p.2))
  let vec1 := vec0.map (fun v =>
    (sin altitude * v.1 + cos altitude * v.2.2, v.2.1,
      -(cos altitude) * v.1 + sin altitude * v.2.2))
  vec1.map (fun v =>
    (tan (arccos v.2.2) * cos (arctan2 v.2.1 v.1), tan (arccos v.2.2) * sin (arctan2 v.2.1 v.1)))

/-- TelescopeFrame (lines 59-82): the telescope_pointing attribute is a
CoordinateAttribute with default None; modelled as an optional (az, alt)
pair in radians. -/
structure TelescopeFrame where
  telescope_pointing : Option (ℝ × ℝ) := none

/-- NominalFrame (lines 85-106): reference_point attribute, default None. -/
structure NominalFrame where
  reference_point : Option (ℝ × ℝ) := none

/-- CameraFrame (lines 109-129): focal_length is a QuantityAttribute with
default 0 (not None), rotation defaults to 0, telescope_pointing defaults
to None. -/
structure CameraFrame where
  focal_length : ℝ := 0
  rotation : ℝ := 0
  telescope_pointing : Option (ℝ × ℝ) := none

/-- Dereferencing an unset (None) frame attribute inside a transform raises
in Python before any numeric computation; the error is modelled by this
type, named after the failure kind the spec assigns to it. -/
inductive FrameError where
  | missingFrameAttribute
deriving DecidableEq

/-- horizon_to_telescope (lines 254-284): offset of the observed direction
(az, alt) relative to telescope_frame.telescope_pointing.  Accessing the
pointing of a frame that has none fails. -/
noncomputable def horizon_to_telescope (horizon_coord : ℝ × ℝ) (telescope_frame : TelescopeFrame) :
    Except FrameError (ℝ × ℝ) :=
  match telescope_frame.telescope_pointing with
  | none => .error .missingFrameAttribute
  | some p => .ok (altaz_to_offset horizon_coord.1 horizon_coord.2 p.1 p.2)

/-- telescope_to_horizon (lines 287-313): absolute direction from the
telescope offset, returned as (az, alt) (lon = azimuth, lat = altitude). -/
noncomputable def telescope_to_horizon (telescope_coord : ℝ × ℝ) (telescope_frame : TelescopeFrame) :
    Except FrameError (ℝ × ℝ) :=
  match telescope_frame.telescope_pointing with
  | none => .error .missingFrameAttribute
  | some p =>
    let r := offset_to_altaz telescope_coord.1 telescope_coord.2 p.2 p.1
    .ok (r.2, r.1)

/-- nominal_to_altaz (lines 319-348): same kernel as telescope_to_horizon,
keyed on the reference_point attribute. -/
noncomputable def nominal_to_altaz (norm_coord : ℝ × ℝ) (nominal_frame : NominalFrame) :
    Except FrameError (ℝ × ℝ) :=
  match nominal_frame.reference_point with
  | none => .error .missingFrameAttribute
  | some q =>
    let r := offset_to_altaz norm_coord.1 norm_coord.2 q.2 q.1
    .ok (r.2, r.1)

/-- altaz_to_nominal (lines 351-375): same kernel as horizon_to_telescope,
keyed on the reference_point attribute. -/
noncomputable def altaz_to_nominal (altaz_coord : ℝ × ℝ) (nominal_frame : NominalFrame) :
    Except FrameError (ℝ × ℝ) :=
  match nominal_frame.reference_point with
  | none => .error .missingFrameAttribute
  | some q => .ok (altaz_to_offset altaz_coord.1 altaz_coord.2 q.1 q.2)

/-- telescope_to_nominal (lines 381-412): offset_to_altaz with the telescope
pointing, then altaz_to_offset with the nominal reference point.  Reads
both pointing attributes. -/
noncomputable def telescope_to_nominal (tel_coord : ℝ × ℝ) (telescope_frame : TelescopeFrame)
    (nominal_frame : NominalFrame) : Except FrameError (ℝ × ℝ) :=
  match telescope_frame.telescope_pointing, nominal_frame.reference_point with
  | some p, some q =>
    let t := offset_to_altaz tel_coord.1 tel_coord.2 p.2 p.1
    .ok (altaz_to_offset t.2 t.1 q.1 q.2)
  | _, _ => .error .missingFrameAttribute

/-- nominal_to_telescope (lines 415-451): the exact mirror of
telescope_to_nominal. -/
noncomputable def nominal_to_telescope (norm_coord : ℝ × ℝ) (nominal_frame : NominalFrame)
    (telescope_frame : TelescopeFrame) : Except FrameError (ℝ × ℝ) :=
  match telescope_frame.telescope_pointing, nominal_frame.reference_point with
  | some p, some q =>
    let t := offset_to_altaz norm_coord.1 norm_coord.2 q.2 q.1
    .ok (altaz_to_offset t.2 t.1 p.1 p.2)
  | _, _ => .error .missingFrameAttribute

/-- camera_to_telescope (lines 455-487): rotate the camera position by the
rotation attribute (skipped when it is zero), divide by the focal length.
Neither frame's telescope_pointing is read, and no attribute is checked. -/
noncomputable def camera_to_telescope (camera_coord : ℝ × ℝ) (camera_frame : CameraFrame)
    (telescope_frame : TelescopeFrame) : Except FrameError (ℝ × ℝ) :=
  let rot := camera_frame.rotation
  let rotated :=
    if rot = 0 then (camera_coord.1, camera_coord.2)
    else (camera_coord.1 * cos rot - camera_coord.2 * sin rot,
          camera_coord.1 * sin rot + camera_coord.2 * cos rot)
  .ok (rotated.1 / camera_frame.focal_length, rotated.2 / camera_frame.focal_length)

/-- telescope_to_camera (lines 490-531): rotate by the negated rotation
attribute, multiply by the focal length; returns a 3-dimensional position
whose out-of-plane coordinate is fixed at zero. -/
noncomputable def telescope_to_camera (telescope_coord : ℝ × ℝ) (telescope_frame : TelescopeFrame)
    (camera_frame : CameraFrame) : Except FrameError (ℝ × ℝ × ℝ) :=
  let rot := -camera_frame.rotation
  let rotated :=
    if rot = 0 then (telescope_coord.1, telescope_coord.2)
    else (telescope_coord.1 * cos rot - telescope_coord.2 * sin rot,
          telescope_coord.1 * sin rot + telescope_coord.2 * cos rot)
  .ok (rotated.1 * camera_frame.focal_length, rotated.2 * camera_frame.focal_length, 0)

/-- Angle units carried by astropy quantities in this module. -/
inductive AngleUnit where
  | rad
  | deg
deriving DecidableEq

/-- Radians per unit. -/
noncomputable def AngleUnit.factor : AngleUnit → ℝ
  | .rad => 1
  | .deg => π / 180

/-- An astropy angular Quantity: a value tagged with its unit. -/
structure AngleQ where
  value : ℝ
  unit : AngleUnit

/-- The radian value of a quantity (astropy .to(u.rad).value, and what the
unit-aware numpy trigonometric functions consume). -/
noncomputable def AngleQ.toRad (q : AngleQ) : ℝ := q.value * q.unit.factor

/-- astropy Quantity.to: exact unit conversion. -/
noncomputable def AngleQ.toUnit (q : AngleQ) (u : AngleUnit) : AngleQ :=
  ⟨q.toRad / u.factor, u⟩

/-- Unit layer of offset_to_altaz (lines 202-251): the reference azimuth's
unit is saved, all four inputs are converted to radians, the radian kernel
runs, and both results are converted back to the saved unit. -/
noncomputable def offset_to_altaz_q (x_off y_off altitude azimuth : AngleQ) : AngleQ × AngleQ :=
  let unit := azimuth.unit
  let r := offset_to_altaz x_off.toRad y_off.toRad altitude.toRad azimuth.toRad
  ((AngleQ.mk r.1 .rad).toUnit unit, (AngleQ.mk r.2 .rad).toUnit unit)

/-- Unit layer of horizon_to_telescope (lines 270-284): altaz_to_offset is
applied through astropy's unit-aware trigonometry (radian values), and the
resulting offsets are tagged u.rad, with no conversion back to the unit of
the inputs. -/
noncomputable def horizon_to_telescope_q (az alt azp altp : AngleQ) : AngleQ × AngleQ :=
  let r := altaz_to_offset az.toRad alt.toRad azp.toRad altp.toRad
  (⟨r.1, .rad⟩, ⟨r.2, .rad⟩)

/-- Unit layer of telescope_to_nominal (lines 397-412): offset_to_altaz with
units, then altaz_to_offset; the resulting offsets are tagged u.rad with no
conversion back to the unit of the input offsets. -/
noncomputable def telescope_to_nominal_q (x y azp altp azn altn : AngleQ) : AngleQ × AngleQ :=
  let t := offset_to_altaz_q x y altp azp
  let r := altaz_to_offset t.2.toRad t.1.toRad azn.toRad altn.toRad
  (⟨r.1, .rad⟩, ⟨r.2, .rad⟩)

/-- Unit layer of nominal_to_telescope (lines 432-451): as
telescope_to_nominal_q, but the resulting offsets are converted to the unit
of the input x offset (norm_coord.x.unit, used for both outputs). -/
noncomputable def nominal_to_telescope_q (x y azn altn azp altp : AngleQ) : AngleQ × AngleQ :=
  let t := offset_to_altaz_q x y altn azn
  let r := altaz_to_offset t.2.toRad t.1.toRad azp.toRad altp.toRad
  ((AngleQ.mk r.1 .rad).toUnit x.unit, (AngleQ.mk r.2 .rad).toUnit x.unit)

/-- Modelled from the spec (section 4.1): the design-level algorithm of
offsetFromDirection, written as the spec words it: build the target's
Cartesian unit vector, rotate it about the vertical axis by the reference
azimuth (the azimuth-difference rotation), rotate about the altitude axis,
then project with offset_magnitude = tan(arccos z_local),
offset_angle = atan2(y_local, x_local), x = magnitude * cos(angle),
y = magnitude * sin(angle). -/
noncomputable def offsetFromDirection (targetAz targetAlt refAz refAlt : ℝ) : ℝ × ℝ :=
  let ux := -(cos targetAz) * cos targetAlt
  let uy := sin targetAz * cos targetAlt
  let uz := sin targetAlt
  let wx := cos refAz * ux - sin refAz * uy
  let wy := sin refAz * ux + cos refAz * uy
  let wz := uz
  let x_local := sin refAlt * wx + cos refAlt * wz
  let y_local := wy
  let z_local := -(cos refAlt) * wx + sin refAlt * wz
  let offset_magnitude := tan (arccos z_local)
  let offset_angle := arctan2 y_local x_local
  (offset_magnitude * cos offset_angle, offset_magnitude * sin offset_angle)

/-! ### Properties of the arctan2 model -/

theorem arctan2_zero_zero : arctan2 0 0 = 0 := by
  have h : (⟨0, 0⟩ : ℂ) = 0 := by simp [Complex.ext_iff]
  rw [arctan2, h, Complex.arg_zero]

theorem arctan2_rsincos {r θ : ℝ} (hr : 0 < r) (h1 : -π < θ) (h2 : θ ≤ π) :
    arctan2 (r * sin θ) (r * cos θ) = θ := by
  have h : (⟨r * cos θ, r * sin θ⟩ : ℂ) =
      (r : ℂ) * (Complex.cos θ + Complex.sin θ * Complex.I) := by
    rw [← Complex.ofReal_cos, ← Complex.ofReal_sin, Complex.mk_eq_add_mul_I]
    push_cast
    ring
  rw [arctan2, h, Complex.arg_mul_cos_add_sin_mul_I hr ⟨h1, h2⟩]

theorem abs_complex_mk (x y : ℝ) : Complex.abs ⟨x, y⟩ = sqrt (x * x + y * y) := by
  rw [Complex.abs_apply, Complex.normSq_mk]

theorem cos_arctan2 {y x : ℝ} (h : ¬(x = 0 ∧ y = 0)) :
    cos (arctan2 y x) = x / sqrt (x * x + y * y) := by
  have hz : (⟨x, y⟩ : ℂ) ≠ 0 := by
    simpa [Complex.ext_iff] using h
  rw [arctan2, Complex.cos_arg hz, abs_complex_mk]

theorem sin_arctan2 (y x : ℝ) : sin (arctan2 y x) = y / sqrt (x * x + y * y) := by
  rw [arctan2, Complex.sin_arg, abs_complex_mk]

theorem arctan2_smul {r : ℝ} (hr : 0 < r) (y x : ℝ) :
    arctan2 (r * y) (r * x) = arctan2 y x := by
  have h : (⟨r * x, r * y⟩ : ℂ) = (r : ℂ) * ⟨x, y⟩ := by
    simp [Complex.ext_iff]
  rw [arctan2, h, Complex.arg_real_mul _ hr, arctan2]

theorem neg_pi_lt_arctan2 (y x : ℝ) : -π < arctan2 y x := Complex.neg_pi_lt_arg _

theorem arctan2_le_pi (y x : ℝ) : arctan2 y x ≤ π := Complex.arg_le_pi _

/-! ### Evaluation of the gnomonic projection used by altaz_to_offset -/

theorem gnomonic_eval {X Y Z : ℝ} (hunit : X * X + Y * Y + Z * Z = 1) (hZ : 0 < Z) :
    (tan (arccos Z) * cos (arctan2 Y X), tan (arccos Z) * sin (arctan2 Y X)) = (X / Z, Y / Z) := by
  have htan : tan (arccos Z) = sqrt (1 - Z ^ 2) / Z := tan_arccos Z
  have h1Z : 1 - Z ^ 2 = X * X + Y * Y := by ring_nf; nlinarith [hunit]
  by_cases hXY : X = 0 ∧ Y = 0
  · obtain ⟨hX0, hY0⟩ := hXY
    subst hX0; subst hY0
    have hZ1 : Z = 1 := by nlinarith
    simp [hZ1, arccos_one, tan_zero]
  · have hpos : 0 < X * X + Y * Y := by
      rcases not_and_or.mp hXY with hX | hY
      · nlinarith [mul_self_nonneg Y, mul_self_pos.mpr hX]
      · nlinarith [mul_self_nonneg X, mul_self_pos.mpr hY]
    have hs : 0 < sqrt (X * X + Y * Y) := sqrt_pos.mpr hpos
    have hcos := cos_arctan2 (y := Y) (x := X) hXY
    have hsin := sin_arctan2 Y X
    rw [htan, h1Z, hcos, hsin, Prod.mk.injEq]
    constructor
    · rw [div_mul_div_comm]
      field_simp
      ring
    · rw [div_mul_div_comm]
      field_simp
      ring

/-! ### Closed forms of the two kernels -/

theorem altaz_to_offset_gnomonic (a h a0 h0 : ℝ)
    (hZ : 0 < -(cos h0) * (-(cos (a - a0)) * cos h) + sin h0 * sin h) :
    altaz_to_offset a h a0 h0 =
      ((sin h0 * (-(cos (a - a0)) * cos h) + cos h0 * sin h) /
          (-(cos h0) * (-(cos (a - a0)) * cos h) + sin h0 * sin h),
        sin (a - a0) * cos h /
          (-(cos h0) * (-(cos (a - a0)) * cos h) + sin h0 * sin h)) := by
  have hunit : (sin h0 * (-(cos (a - a0)) * cos h) + cos h0 * sin h) *
        (sin h0 * (-(cos (a - a0)) * cos h) + cos h0 * sin h) +
        sin (a - a0) * cos h * (sin (a - a0) * cos h) +
        (-(cos h0) * (-(cos (a - a0)) * cos h) + sin h0 * sin h) *
        (-(cos h0) * (-(cos (a - a0)) * cos h) + sin h0 * sin h) = 1 := by
    linear_combination
      (cos (a - a0) ^ 2 * cos h ^ 2 + sin h ^ 2) * sin_sq_add_cos_sq h0 +
        cos h ^ 2 * sin_sq_add_cos_sq (a - a0) + sin_sq_add_cos_sq h
  have key := gnomonic_eval hunit hZ
  simp only [altaz_to_offset]
  exact key

theorem offset_to_altaz_zero (altitude azimuth : ℝ) :
    offset_to_altaz 0 0 altitude azimuth = (altitude, azimuth) := by
  simp [offset_to_altaz]

theorem altaz_to_offset_self (a0 h0 : ℝ) : altaz_to_offset a0 h0 a0 h0 = (0, 0) := by
  have hZ : (0:ℝ) < -(cos h0) * (-(cos (a0 - a0)) * cos h0) + sin h0 * sin h0 := by
    rw [sub_self, cos_zero]
    nlinarith [sin_sq_add_cos_sq h0]
  rw [altaz_to_offset_gnomonic a0 h0 a0 h0 hZ]
  have hX : sin h0 * (-(cos (a0 - a0)) * cos h0) + cos h0 * sin h0 = 0 := by
    rw [sub_self, cos_zero]; ring
  have hY : sin (a0 - a0) * cos h0 = 0 := by rw [sub_self, sin_zero]; ring
  rw [hX, hY, zero_div]

theorem offset_to_altaz_core_eval (x y h0 a0 : ℝ) (hr : sqrt (x * x + y * y) ≠ 0) :
    offset_to_altaz_core x y h0 a0 (sqrt (x * x + y * y)) =
      (arcsin ((cos h0 * x + sin h0) / sqrt (1 + (x * x + y * y))),
        arctan2 (y / sqrt (1 + (x * x + y * y)))
          (-((sin h0 * x - cos h0) / sqrt (1 + (x * x + y * y)))) + a0) := by
  have hnn : (0:ℝ) ≤ x * x + y * y :=
    add_nonneg (mul_self_nonneg x) (mul_self_nonneg y)
  have hS : 0 < sqrt (1 + (x * x + y * y)) := sqrt_pos.mpr (by nlinarith)
  simp only [offset_to_altaz_core]
  rw [cos_arctan, sin_arctan, sq_sqrt hnn]
  rw [Prod.mk.injEq]
  constructor
  · congr 1
    field_simp
    ring
  · congr 2
    · field_simp
      ring
    · field_simp
      ring

/-! ### Round trip: direction to offset and back -/

theorem o2a_after_a2o (a h a0 h0 : ℝ)
    (hh1 : -(π / 2) < h) (hh2 : h < π / 2)
    (h01 : -(π / 2) ≤ h0) (h02 : h0 ≤ π / 2)
    (hd1 : -π < a - a0) (hd2 : a - a0 < π)
    (hfwd : 0 < cos h0 * cos (a - a0) * cos h + sin h0 * sin h) :
    offset_to_altaz (altaz_to_offset a h a0 h0).1 (altaz_to_offset a h a0 h0).2 h0 a0 = (h, a) := by
  have hc : 0 < cos h := cos_pos_of_mem_Ioo (Set.mem_Ioo.mpr ⟨hh1, hh2⟩)
  have hZlit : (0:ℝ) < -(cos h0) * (-(cos (a - a0)) * cos h) + sin h0 * sin h := by
    nlinarith [hfwd]
  rw [altaz_to_offset_gnomonic a h a0 h0 hZlit]
  dsimp only
  set Z := -(cos h0) * (-(cos (a - a0)) * cos h) + sin h0 * sin h with hZdef
  set X := sin h0 * (-(cos (a - a0)) * cos h) + cos h0 * sin h with hXdef
  set Y := sin (a - a0) * cos h with hYdef
  have hunit : X * X + Y * Y + Z * Z = 1 := by
    rw [hXdef, hYdef, hZdef]
    linear_combination
      (cos (a - a0) ^ 2 * cos h ^ 2 + sin h ^ 2) * sin_sq_add_cos_sq h0 +
        cos h ^ 2 * sin_sq_add_cos_sq (a - a0) + sin_sq_add_cos_sq h
  by_cases hXY : X = 0 ∧ Y = 0
  · obtain ⟨hX0, hY0⟩ := hXY
    rw [hX0, hY0, zero_div, offset_to_altaz_zero]
    have hZ1 : Z = 1 := by
      have hZsq : Z * Z = 1 := by
        rw [hX0, hY0] at hunit
        linarith
      have hfac : (Z - 1) * (Z + 1) = 0 := by linear_combination hZsq
      rcases mul_eq_zero.mp hfac with h1 | h1
      · linarith
      · linarith
    have hsd : sin (a - a0) = 0 := by
      have h2 : sin (a - a0) * cos h = 0 := by rw [← hYdef]; exact hY0
      rcases mul_eq_zero.mp h2 with h3 | h3
      · exact h3
      · linarith
    have hd0 : a - a0 = 0 := (sin_eq_zero_iff_of_lt_of_lt hd1 hd2).mp hsd
    have hcd : cos (a - a0) = 1 := by rw [hd0, cos_zero]
    rw [hXdef, hcd] at hX0
    rw [hZdef, hcd] at hZ1
    have hsq : (cos h - cos h0) ^ 2 + (sin h - sin h0) ^ 2 = 0 := by
      linear_combination sin_sq_add_cos_sq h + sin_sq_add_cos_sq h0 - 2 * hZ1
    have hceq : cos h - cos h0 = 0 := by
      have h4 : (cos h - cos h0) ^ 2 = 0 :=
        le_antisymm (by nlinarith [sq_nonneg (sin h - sin h0)]) (sq_nonneg _)
      exact sq_eq_zero_iff.mp h4
    have hsins : sin h = sin h0 := by
      have h4 : (sin h - sin h0) ^ 2 = 0 :=
        le_antisymm (by nlinarith [sq_nonneg (cos h - cos h0)]) (sq_nonneg _)
      have h5 := sq_eq_zero_iff.mp h4
      linarith
    have hhh : h = h0 :=
      injOn_sin (Set.mem_Icc.mpr ⟨le_of_lt hh1, le_of_lt hh2⟩)
        (Set.mem_Icc.mpr ⟨h01, h02⟩) hsins
    have haa : a = a0 := by linarith
    rw [hhh, haa]
  · have hZne : Z ≠ 0 := ne_of_gt hZlit
    have hpos : 0 < (X / Z) * (X / Z) + (Y / Z) * (Y / Z) := by
      rcases not_and_or.mp hXY with hX | hY
      · have hXZ : X / Z ≠ 0 := div_ne_zero hX hZne
        nlinarith [mul_self_pos.mpr hXZ, mul_self_nonneg (Y / Z)]
      · have hYZ : Y / Z ≠ 0 := div_ne_zero hY hZne
        nlinarith [mul_self_pos.mpr hYZ, mul_self_nonneg (X / Z)]
    have hoff : sqrt ((X / Z) * (X / Z) + (Y / Z) * (Y / Z)) ≠ 0 :=
      ne_of_gt (sqrt_pos.mpr hpos)
    simp only [offset_to_altaz]
    rw [if_neg hoff, if_neg hoff]
    rw [offset_to_altaz_core_eval (X / Z) (Y / Z) h0 a0 hoff]
    have hZsq : 1 + ((X / Z) * (X / Z) + (Y / Z) * (Y / Z)) = (1 / Z) * (1 / Z) := by
      field_simp
      linear_combination hunit
    have hSS : sqrt (1 + ((X / Z) * (X / Z) + (Y / Z) * (Y / Z))) = 1 / Z := by
      rw [hZsq, sqrt_mul_self (one_div_pos.mpr hZlit).le]
    rw [hSS]
    have hkey1 : cos h0 * X + sin h0 * Z = sin h := by
      rw [hXdef, hZdef]
      linear_combination sin h * sin_sq_add_cos_sq h0
    have hkey2 : sin h0 * X - cos h0 * Z = -(cos (a - a0) * cos h) := by
      rw [hXdef, hZdef]
      linear_combination (-(cos (a - a0) * cos h)) * sin_sq_add_cos_sq h0
    have harg1 : (cos h0 * (X / Z) + sin h0) / (1 / Z) = sin h := by
      field_simp
      linear_combination hkey1
    have harg2 : -((sin h0 * (X / Z) - cos h0) / (1 / Z)) = cos h * cos (a - a0) := by
      field_simp
      linear_combination -hkey2
    have harg3 : Y / Z / (1 / Z) = cos h * sin (a - a0) := by
      rw [hYdef]
      field_simp
      ring
    rw [harg1, harg2, harg3]
    rw [arcsin_sin (le_of_lt hh1) (le_of_lt hh2)]
    rw [arctan2_rsincos hc hd1 (le_of_lt hd2)]
    rw [sub_add_cancel]

/-! ### Round trip: offset to direction and back -/

theorem a2o_after_o2a (x y a0 h0 : ℝ)
    (hpole : (cos h0 * x + sin h0) * (cos h0 * x + sin h0) < 1 + (x * x + y * y)) :
    altaz_to_offset (offset_to_altaz x y h0 a0).2 (offset_to_altaz x y h0 a0).1 a0 h0 = (x, y) := by
  by_cases hr : sqrt (x * x + y * y) = 0
  · have hnn : (0:ℝ) ≤ x * x + y * y := add_nonneg (mul_self_nonneg x) (mul_self_nonneg y)
    have hxy : x * x + y * y = 0 := (sqrt_eq_zero hnn).mp hr
    have hx : x = 0 := by
      have h1 : x * x = 0 := le_antisymm (by linarith [mul_self_nonneg y]) (mul_self_nonneg x)
      exact mul_self_eq_zero.mp h1
    have hy : y = 0 := by
      have h1 : y * y = 0 := le_antisymm (by linarith [mul_self_nonneg x]) (mul_self_nonneg y)
      exact mul_self_eq_zero.mp h1
    subst hx; subst hy
    rw [offset_to_altaz_zero]
    exact altaz_to_offset_self a0 h0
  · simp only [offset_to_altaz]
    rw [if_neg hr, if_neg hr, offset_to_altaz_core_eval x y h0 a0 hr]
    dsimp only
    set S := sqrt (1 + (x * x + y * y)) with hSdef
    have hS2pos : (0:ℝ) < 1 + (x * x + y * y) := by
      nlinarith [mul_self_nonneg x, mul_self_nonneg y]
    have hSpos : 0 < S := sqrt_pos.mpr hS2pos
    have hSS : S * S = 1 + (x * x + y * y) := mul_self_sqrt hS2pos.le
    set A := (cos h0 * x + sin h0) / S with hAdef
    set X0 := (sin h0 * x - cos h0) / S with hX0def
    set Y0 := y / S with hY0def
    have hunit2 : X0 * X0 + Y0 * Y0 + A * A = 1 := by
      rw [hAdef, hX0def, hY0def]
      field_simp
      linear_combination (x * x + 1) * sin_sq_add_cos_sq h0 - hSS
    have hA2 : A * A < 1 := by
      rw [hAdef, div_mul_div_comm]
      rw [div_lt_one (by nlinarith [hSS])]
      rw [hSS]
      exact hpole
    have hXY0pos : 0 < X0 * X0 + Y0 * Y0 := by nlinarith [hunit2, hA2]
    have hne : ¬((-X0) = 0 ∧ Y0 = 0) := by
      rintro ⟨hh1', hh2'⟩
      rw [neg_eq_zero] at hh1'
      rw [hh1', hh2'] at hXY0pos
      norm_num at hXY0pos
    have hsqarg : -X0 * -X0 + Y0 * Y0 = X0 * X0 + Y0 * Y0 := by ring
    have hcosD : cos (arctan2 Y0 (-X0)) = -X0 / sqrt (X0 * X0 + Y0 * Y0) := by
      rw [cos_arctan2 hne, hsqarg]
    have hsinD : sin (arctan2 Y0 (-X0)) = Y0 / sqrt (X0 * X0 + Y0 * Y0) := by
      rw [sin_arctan2, hsqarg]
    have hs'pos : 0 < sqrt (X0 * X0 + Y0 * Y0) := sqrt_pos.mpr hXY0pos
    have hcosA : cos (arcsin A) = sqrt (X0 * X0 + Y0 * Y0) := by
      rw [cos_arcsin]
      congr 1
      linear_combination -hunit2
    have hsin' : sin (arcsin A) = A :=
      sin_arcsin (by nlinarith [hA2]) (by nlinarith [hA2])
    have hcda : cos (arctan2 Y0 (-X0)) * cos (arcsin A) = -X0 := by
      rw [hcosD, hcosA, div_mul_cancel₀ _ hs'pos.ne']
    have hsda : sin (arctan2 Y0 (-X0)) * cos (arcsin A) = Y0 := by
      rw [hsinD, hcosA, div_mul_cancel₀ _ hs'pos.ne']
    have hZval : -(cos h0) * (-(cos ((arctan2 Y0 (-X0) + a0) - a0)) * cos (arcsin A)) +
        sin h0 * sin (arcsin A) = 1 / S := by
      rw [add_sub_cancel_right, hsin']
      have e1 : -(cos h0) * (-(cos (arctan2 Y0 (-X0))) * cos (arcsin A)) + sin h0 * A
          = cos h0 * (cos (arctan2 Y0 (-X0)) * cos (arcsin A)) + sin h0 * A := by ring
      rw [e1, hcda, hX0def, hAdef]
      field_simp
      linear_combination sin_sq_add_cos_sq h0
    have hZ' : 0 < -(cos h0) * (-(cos ((arctan2 Y0 (-X0) + a0) - a0)) * cos (arcsin A)) +
        sin h0 * sin (arcsin A) := by
      rw [hZval]
      exact one_div_pos.mpr hSpos
    rw [altaz_to_offset_gnomonic (arctan2 Y0 (-X0) + a0) (arcsin A) a0 h0 hZ']
    have hXval : sin h0 * (-(cos ((arctan2 Y0 (-X0) + a0) - a0)) * cos (arcsin A)) +
        cos h0 * sin (arcsin A) = x / S := by
      rw [add_sub_cancel_right, hsin']
      have e1 : sin h0 * (-(cos (arctan2 Y0 (-X0))) * cos (arcsin A)) + cos h0 * A
          = -(sin h0) * (cos (arctan2 Y0 (-X0)) * cos (arcsin A)) + cos h0 * A := by ring
      rw [e1, hcda, hX0def, hAdef]
      field_simp
      linear_combination (x * S ^ 2) * sin_sq_add_cos_sq h0
    have hYval : sin ((arctan2 Y0 (-X0) + a0) - a0) * cos (arcsin A) = y / S := by
      rw [add_sub_cancel_right, hsda, hY0def]
    rw [hXval, hYval, hZval]
    rw [Prod.mk.injEq]
    constructor
    · field_simp
    · field_simp

/-! ### Camera rotation and scaling -/

theorem camera_to_telescope_eval (x y f θ : ℝ) (pt : Option (ℝ × ℝ)) (tf : TelescopeFrame) :
    camera_to_telescope (x, y) ⟨f, θ, pt⟩ tf =
      .ok ((x * cos θ - y * sin θ) / f, (x * sin θ + y * cos θ) / f) := by
  simp only [camera_to_telescope]
  by_cases hθ : θ = 0
  · subst hθ
    norm_num
  · rw [if_neg hθ]

theorem telescope_to_camera_eval (x y f θ : ℝ) (pt : Option (ℝ × ℝ)) (tf : TelescopeFrame) :
    telescope_to_camera (x, y) tf ⟨f, θ, pt⟩ =
      .ok ((x * cos θ + y * sin θ) * f, (-(x * sin θ) + y * cos θ) * f, 0) := by
  simp only [telescope_to_camera]
  by_cases hθ : θ = 0
  · subst hθ
    norm_num
  · rw [if_neg (by simpa using hθ)]
    have e1 : x * cos (-θ) - y * sin (-θ) = x * cos θ + y * sin θ := by
      rw [cos_neg, sin_neg]; ring
    have e2 : x * sin (-θ) + y * cos (-θ) = -(x * sin θ) + y * cos θ := by
      rw [cos_neg, sin_neg]; ring
    rw [e1, e2]

theorem camera_roundtrip_ct (x y θ f : ℝ) (hf : f ≠ 0) (pt : Option (ℝ × ℝ))
    (tf : TelescopeFrame) :
    (camera_to_telescope (x, y) ⟨f, θ, pt⟩ tf).bind
      (fun off => telescope_to_camera off tf ⟨f, θ, pt⟩) = .ok (x, y, 0) := by
  rw [camera_to_telescope_eval]
  show telescope_to_camera ((x * cos θ - y * sin θ) / f, (x * sin θ + y * cos θ) / f) tf
      ⟨f, θ, pt⟩ = Except.ok (x, y, 0)
  rw [telescope_to_camera_eval]
  have e1 : ((x * cos θ - y * sin θ) / f * cos θ + (x * sin θ + y * cos θ) / f * sin θ) * f
      = x := by
    field_simp
    linear_combination x * sin_sq_add_cos_sq θ
  have e2 : (-((x * cos θ - y * sin θ) / f * sin θ) + (x * sin θ + y * cos θ) / f * cos θ) * f
      = y := by
    field_simp
    linear_combination (y * f ^ 2) * sin_sq_add_cos_sq θ
  rw [e1, e2]

theorem camera_roundtrip_tc (x y θ f : ℝ) (hf : f ≠ 0) (pt : Option (ℝ × ℝ))
    (tf : TelescopeFrame) :
    (telescope_to_camera (x, y) tf ⟨f, θ, pt⟩).bind
      (fun pos => camera_to_telescope (pos.1, pos.2.1) ⟨f, θ, pt⟩ tf) = .ok (x, y) := by
  rw [telescope_to_camera_eval]
  show camera_to_telescope ((x * cos θ + y * sin θ) * f, (-(x * sin θ) + y * cos θ) * f)
      ⟨f, θ, pt⟩ tf = Except.ok (x, y)
  rw [camera_to_telescope_eval]
  have e1 : ((x * cos θ + y * sin θ) * f * cos θ - (-(x * sin θ) + y * cos θ) * f * sin θ) / f
      = x := by
    field_simp
    linear_combination (x * f) * sin_sq_add_cos_sq θ
  have e2 : ((x * cos θ + y * sin θ) * f * sin θ + (-(x * sin θ) + y * cos θ) * f * cos θ) / f
      = y := by
    field_simp
    linear_combination (y * f) * sin_sq_add_cos_sq θ
  rw [e1, e2]

/-! ### Elementwise structure of the vectorised kernels -/

theorem zipWith_map_self {α β γ : Type _} (l : List α) (σ : α → β) (f : α → β → γ) :
    List.zipWith f l (l.map σ) = l.map fun p => f p (σ p) := by
  induction l with
  | nil => rfl
  | cons a t ih => simp [ih]

theorem zipWith_map_map {α β γ δ : Type _} (l : List α) (σ : α → β) (τ : α → γ) (f : β → γ → δ) :
    List.zipWith f (l.map σ) (l.map τ) = l.map fun p => f (σ p) (τ p) := by
  induction l with
  | nil => rfl
  | cons a t ih => simp [ih]

theorem offset_to_altaz_vec_eq_map (x_off y_off : List ℝ) (altitude azimuth : ℝ) :
    offset_to_altaz_vec x_off y_off altitude azimuth =
      (x_off.zip y_off).map fun p => offset_to_altaz p.1 p.2 altitude azimuth := by
  simp only [offset_to_altaz_vec]
  by_cases hz : ∃ o ∈ (x_off.zip y_off).map (fun p => sqrt (p.1 * p.1 + p.2 * p.2)), o = 0
  · rw [if_pos hz, if_pos hz, List.map_map, zipWith_map_self, zipWith_map_map]
    apply List.map_congr_left
    intro p _
    simp only [Function.comp, offset_to_altaz]
  · rw [if_neg hz, if_neg hz, zipWith_map_self]
    apply List.map_congr_left
    intro p hp
    have hσ : sqrt (p.1 * p.1 + p.2 * p.2) ≠ 0 := by
      intro h0
      exact hz ⟨_, List.mem_map_of_mem _ hp, h0⟩
    simp only [offset_to_altaz, if_neg hσ]

theorem altaz_to_offset_vec_eq_map (obj_azimuth obj_altitude : List ℝ) (azimuth altitude : ℝ) :
    altaz_to_offset_vec obj_azimuth obj_altitude azimuth altitude =
      (obj_azimuth.zip obj_altitude).map fun p => altaz_to_offset p.1 p.2 azimuth altitude := by
  simp only [altaz_to_offset_vec, List.map_map]
  apply List.map_congr_left
  intro p _
  simp only [Function.comp, altaz_to_offset]

/-! ### Unit bookkeeping -/

theorem AngleUnit.factor_pos (u : AngleUnit) : 0 < u.factor := by
  cases u
  · norm_num [AngleUnit.factor]
  · have := pi_pos
    simp only [AngleUnit.factor]
    positivity

theorem AngleQ.toRad_toUnit (q : AngleQ) (u : AngleUnit) : (q.toUnit u).toRad = q.toRad := by
  simp only [AngleQ.toUnit, AngleQ.toRad]
  exact div_mul_cancel₀ _ (AngleUnit.factor_pos u).ne'

theorem AngleQ.toRad_rad (v : ℝ) : (AngleQ.mk v .rad).toRad = v := by
  simp [AngleQ.toRad, AngleUnit.factor]

/-! ### Sign of arctan2 in the lower half plane -/

theorem arctan2_neg_of (y x : ℝ) (hy : y < 0) (hx : 0 < x) : arctan2 y x < 0 := by
  have hs := sin_arctan2 y x
  have hpos : 0 < sqrt (x * x + y * y) := sqrt_pos.mpr (by nlinarith)
  have hsneg : sin (arctan2 y x) < 0 := by
    rw [hs]
    exact div_neg_of_neg_of_pos hy hpos
  by_contra hcon
  push_neg at hcon
  have := sin_nonneg_of_nonneg_of_le_pi hcon (arctan2_le_pi y x)
  linarith

/-! ### Claim theorems -/

/-- C2: for every target direction and reference direction, altaz_to_offset
computes its result by the design-level algorithm of the spec: rotate the
target's Cartesian unit vector into the reference's local frame (an
azimuth-difference rotation followed by an altitude-axis rotation), then
project with offset_magnitude = tan(arccos z_local), offset_angle =
atan2(y_local, x_local), x = magnitude * cos(angle), y = magnitude *
sin(angle).  Proved as an equality for all inputs, which covers in
particular every target in the forward hemisphere of the reference. -/
theorem altaz_to_offset_matches_design (targetAz targetAlt refAz refAlt : ℝ) :
    altaz_to_offset targetAz targetAlt refAz refAlt =
      offsetFromDirection targetAz targetAlt refAz refAlt := by
  simp only [altaz_to_offset, offsetFromDirection]
  have h1 : cos refAz * (-(cos targetAz) * cos targetAlt) -
      sin refAz * (sin targetAz * cos targetAlt) = -(cos (targetAz - refAz)) * cos targetAlt := by
    rw [cos_sub]; ring
  have h2 : sin refAz * (-(cos targetAz) * cos targetAlt) +
      cos refAz * (sin targetAz * cos targetAlt) = sin (targetAz - refAz) * cos targetAlt := by
    rw [sin_sub]; ring
  rw [h1, h2]

/-- C3: offset_to_altaz at an exactly-zero offset pair returns exactly the
reference direction, in both the scalar call shape and the array call
shape: the implementation substitutes 1e-14 only for zero-magnitude
elements, runs the general formula, and overwrites those elements' results
with the reference direction.  The array part states that a zero element
yields exactly (altitude, azimuth) while leaving the other elements'
results unchanged. -/
theorem zero_offset_identity :
    (∀ altitude azimuth : ℝ, offset_to_altaz 0 0 altitude azimuth = (altitude, azimuth)) ∧
      ∀ (x_off y_off : List ℝ) (altitude azimuth : ℝ),
        offset_to_altaz_vec (0 :: x_off) (0 :: y_off) altitude azimuth =
          (altitude, azimuth) :: offset_to_altaz_vec x_off y_off altitude azimuth := by
  constructor
  · exact offset_to_altaz_zero
  · intro xs ys altitude azimuth
    rw [offset_to_altaz_vec_eq_map, offset_to_altaz_vec_eq_map, List.zip_cons_cons,
      List.map_cons]
    rw [show ((0:ℝ), (0:ℝ)).1 = (0:ℝ) from rfl, show ((0:ℝ), (0:ℝ)).2 = (0:ℝ) from rfl,
      offset_to_altaz_zero]

/-- C8: applying a conversion to arrays of N elements is elementwise
identical to N independent scalar calls, for both kernels, including when
some elements have exactly-zero offset magnitude and others do not (the
masking in the array path of offset_to_altaz is per element). -/
theorem batch_matches_scalar (x_off y_off obj_azimuth obj_altitude : List ℝ)
    (altitude azimuth altitude2 azimuth2 : ℝ) :
    offset_to_altaz_vec x_off y_off altitude azimuth =
      ((x_off.zip y_off).map fun p => offset_to_altaz p.1 p.2 altitude azimuth) ∧
    altaz_to_offset_vec obj_azimuth obj_altitude azimuth2 altitude2 =
      ((obj_azimuth.zip obj_altitude).map fun p => altaz_to_offset p.1 p.2 azimuth2 altitude2) :=
  ⟨offset_to_altaz_vec_eq_map x_off y_off altitude azimuth,
    altaz_to_offset_vec_eq_map obj_azimuth obj_altitude azimuth2 altitude2⟩

/-- C9: the azimuth returned by offset_to_altaz is not normalized into
[0, 2π): at offset (0, -1) with reference direction az = 0, alt = 0 the
returned azimuth is negative, and at zero offset with reference azimuth 7
(a valid direction, since no wrapping is applied anywhere) the returned
azimuth is 7 which is at least 2π. -/
theorem azimuth_not_normalized :
    (offset_to_altaz 0 (-1) 0 0).2 < 0 ∧ 2 * π ≤ (offset_to_altaz 0 0 0 7).2 := by
  constructor
  · have hr : sqrt ((0:ℝ) * 0 + (-1) * (-1)) ≠ 0 := by
      norm_num
    simp only [offset_to_altaz]
    rw [if_neg hr, if_neg hr, offset_to_altaz_core_eval 0 (-1) 0 0 hr]
    dsimp only
    have hS : (0:ℝ) < sqrt (1 + ((0:ℝ) * 0 + (-1) * (-1))) := sqrt_pos.mpr (by norm_num)
    have hx : (0:ℝ) < -((sin 0 * 0 - cos 0) / sqrt (1 + ((0:ℝ) * 0 + (-1) * (-1)))) := by
      rw [sin_zero, cos_zero]
      rw [show -(((0:ℝ) * 0 - 1) / sqrt (1 + ((0:ℝ) * 0 + (-1) * (-1)))) =
        1 / sqrt (1 + ((0:ℝ) * 0 + (-1) * (-1))) from by ring]
      exact one_div_pos.mpr hS
    have hy : ((-1:ℝ) / sqrt (1 + ((0:ℝ) * 0 + (-1) * (-1)))) < 0 :=
      div_neg_of_neg_of_pos (by norm_num) hS
    have := arctan2_neg_of _ _ hy hx
    linarith
  · rw [offset_to_altaz_zero]
    have := pi_lt_d2
    norm_num
    linarith

/-- C6 counterexample: the claim says every transform into or out of a
Telescope frame with unset telescope_pointing fails; but camera_to_telescope
is a transform into such a frame, reads neither frame's pointing, and
returns an ordinary numeric result. -/
theorem camera_transform_ignores_pointing :
    camera_to_telescope (1, 2) ⟨1, 0, none⟩ ⟨none⟩ = .ok (1, 2) ∧
      camera_to_telescope (1, 2) ⟨1, 0, none⟩ ⟨none⟩ ≠ .error .missingFrameAttribute := by
  have h1 : camera_to_telescope (1, 2) ⟨1, 0, none⟩ ⟨none⟩ = .ok (1, 2) := by
    norm_num [camera_to_telescope]
  refine ⟨h1, fun hcon => ?_⟩
  rw [h1] at hcon
  exact Except.noConfusion hcon

/-- C6 (amended): every transform that reads the telescope_pointing
attribute (Horizon to Telescope, Telescope to Horizon, Telescope to
Nominal, Nominal to Telescope) fails with MissingFrameAttribute when it is
unset, returning no numeric result; the Camera/Telescope transforms never
read it and always return a numeric result. -/
theorem missing_pointing_fails :
    (∀ horizon_coord : ℝ × ℝ,
      horizon_to_telescope horizon_coord ⟨none⟩ = .error .missingFrameAttribute) ∧
    (∀ telescope_coord : ℝ × ℝ,
      telescope_to_horizon telescope_coord ⟨none⟩ = .error .missingFrameAttribute) ∧
    (∀ (tel_coord : ℝ × ℝ) (nf : NominalFrame),
      telescope_to_nominal tel_coord ⟨none⟩ nf = .error .missingFrameAttribute) ∧
    (∀ (norm_coord : ℝ × ℝ) (nf : NominalFrame),
      nominal_to_telescope norm_coord nf ⟨none⟩ = .error .missingFrameAttribute) ∧
    (∀ (camera_coord : ℝ × ℝ) (cf : CameraFrame) (tf : TelescopeFrame),
      ∃ v, camera_to_telescope camera_coord cf tf = .ok v) ∧
    (∀ (telescope_coord : ℝ × ℝ) (cf : CameraFrame) (tf : TelescopeFrame),
      ∃ v, telescope_to_camera telescope_coord tf cf = .ok v) := by
  refine ⟨fun c => rfl, fun c => rfl, ?_, ?_, ?_, ?_⟩
  · rintro c ⟨_ | q⟩ <;> rfl
  · rintro c ⟨_ | q⟩ <;> rfl
  · intro c cf tf
    exact ⟨_, rfl⟩
  · intro c cf tf
    exact ⟨_, rfl⟩

/-- C7 counterexample: the claim says every transform converts its result
back to the unit of the caller's input quantities; telescope_to_nominal,
given offsets tagged degree, returns offsets tagged radian. -/
theorem telescope_to_nominal_unit_not_preserved :
    (telescope_to_nominal_q ⟨1, .deg⟩ ⟨2, .deg⟩ ⟨0, .rad⟩ ⟨0, .rad⟩ ⟨0, .rad⟩ ⟨0, .rad⟩).1.unit =
        AngleUnit.rad ∧ AngleUnit.rad ≠ AngleUnit.deg :=
  ⟨rfl, by decide⟩

/-- C7 (amended): every transform normalizes angular quantities to radians
before applying trigonometry (the value computed is the radian kernel
applied to the radian values of the inputs), and offset_to_altaz converts
its outputs back to the unit of the reference azimuth while
nominal_to_telescope converts its offset outputs to the unit of the input
x offset; but horizon_to_telescope and telescope_to_nominal return offsets
tagged radian regardless of the input units. -/
theorem unit_normalization :
    (∀ x_off y_off altitude azimuth : AngleQ,
      (offset_to_altaz_q x_off y_off altitude azimuth).1.unit = azimuth.unit ∧
      (offset_to_altaz_q x_off y_off altitude azimuth).2.unit = azimuth.unit ∧
      (offset_to_altaz_q x_off y_off altitude azimuth).1.toRad =
        (offset_to_altaz x_off.toRad y_off.toRad altitude.toRad azimuth.toRad).1 ∧
      (offset_to_altaz_q x_off y_off altitude azimuth).2.toRad =
        (offset_to_altaz x_off.toRad y_off.toRad altitude.toRad azimuth.toRad).2) ∧
    (∀ az alt azp altp : AngleQ,
      (horizon_to_telescope_q az alt azp altp).1.unit = AngleUnit.rad ∧
      (horizon_to_telescope_q az alt azp altp).2.unit = AngleUnit.rad ∧
      (horizon_to_telescope_q az alt azp altp).1.value =
        (altaz_to_offset az.toRad alt.toRad azp.toRad altp.toRad).1 ∧
      (horizon_to_telescope_q az alt azp altp).2.value =
        (altaz_to_offset az.toRad alt.toRad azp.toRad altp.toRad).2) ∧
    (∀ x y azp altp azn altn : AngleQ,
      (telescope_to_nominal_q x y azp altp azn altn).1.unit = AngleUnit.rad ∧
      (telescope_to_nominal_q x y azp altp azn altn).2.unit = AngleUnit.rad) ∧
    (∀ x y azn altn azp altp : AngleQ,
      (nominal_to_telescope_q x y azn altn azp altp).1.unit = x.unit ∧
      (nominal_to_telescope_q x y azn altn azp altp).2.unit = x.unit) := by
  refine ⟨fun x y alt az => ⟨rfl, rfl, ?_, ?_⟩, fun az alt azp altp => ⟨rfl, rfl, rfl, rfl⟩,
    fun _ _ _ _ _ _ => ⟨rfl, rfl⟩, fun _ _ _ _ _ _ => ⟨rfl, rfl⟩⟩
  · rw [show (offset_to_altaz_q x y alt az).1 =
      (AngleQ.mk (offset_to_altaz x.toRad y.toRad alt.toRad az.toRad).1 .rad).toUnit az.unit
      from rfl]
    rw [AngleQ.toRad_toUnit, AngleQ.toRad_rad]
  · rw [show (offset_to_altaz_q x y alt az).2 =
      (AngleQ.mk (offset_to_altaz x.toRad y.toRad alt.toRad az.toRad).2 .rad).toUnit az.unit
      from rfl]
    rw [AngleQ.toRad_toUnit, AngleQ.toRad_rad]

/-- C10: a CameraFrame left with all attributes unset has focal_length 0
(a plain quantity default, not None) and rotation 0; camera_to_telescope
then divides the (un)rotated position by this zero focal length and signals
no error: the division is unguarded and the missing required attribute is
never detected.  (In IEEE float arithmetic the division by zero yields
infinite or NaN offsets; the embedding's total real division shows the
zero divisor is reached and no error path exists.) -/
theorem focal_length_silent_default :
    ({} : CameraFrame).focal_length = 0 ∧ ({} : CameraFrame).rotation = 0 ∧
      ∀ (camera_coord : ℝ × ℝ) (tf : TelescopeFrame),
        camera_to_telescope camera_coord {} tf =
          .ok (camera_coord.1 / 0, camera_coord.2 / 0) := by
  refine ⟨rfl, rfl, fun c tf => ?_⟩
  simp [camera_to_telescope]

/-- C4: applying Camera to Telescope (rotate by the rotation attribute,
divide by the focal length) followed by Telescope to Camera (rotate by the
negated attribute, multiply by the focal length) with the same frame
attributes returns the camera position p unchanged, exactly, for every
rotation angle and every focal length f > 0, and the returned 3-dimensional
position has out-of-plane coordinate 0. -/
theorem camera_telescope_roundtrip (p : ℝ × ℝ) (θ f : ℝ) (pt : Option (ℝ × ℝ))
    (tf : TelescopeFrame) (hf : 0 < f) :
    (camera_to_telescope p ⟨f, θ, pt⟩ tf).bind
      (fun off => telescope_to_camera off tf ⟨f, θ, pt⟩) = .ok (p.1, p.2, 0) := by
  obtain ⟨x, y⟩ := p
  exact camera_roundtrip_ct x y θ f (ne_of_gt hf) pt tf

/-- Witness for C4 at p = (1, 2), θ = 0, f = 1. -/
theorem camera_telescope_roundtrip_check :
    (camera_to_telescope ((1:ℝ), (2:ℝ)) ⟨1, 0, none⟩ ⟨none⟩).bind
      (fun off => telescope_to_camera off ⟨none⟩ ⟨1, 0, none⟩) = .ok (1, 2, 0) :=
  camera_telescope_roundtrip (1, 2) 0 1 none ⟨none⟩ (by norm_num)

/-- C5: for a fixed telescope pointing and array reference pointing, and a
telescope offset in the validity regime (the intermediate absolute
direction (az_d, alt_d) lies strictly inside the altitude range and in the
forward hemisphere of the reference point), Telescope to Nominal followed
by Nominal to Horizon equals the direct Telescope to Horizon transform
exactly (hence within any tolerance); both paths are built from the same
two kernels offset_to_altaz and altaz_to_offset. -/
theorem telescope_nominal_horizon_consistency (x y azp altp azn altn alt_d az_d : ℝ)
    (hd : offset_to_altaz x y altp azp = (alt_d, az_d))
    (hd1 : -(π / 2) < alt_d) (hd2 : alt_d < π / 2)
    (hn1 : -(π / 2) ≤ altn) (hn2 : altn ≤ π / 2)
    (hdn1 : -π < az_d - azn) (hdn2 : az_d - azn < π)
    (hfn : 0 < cos altn * cos (az_d - azn) * cos alt_d + sin altn * sin alt_d) :
    (telescope_to_nominal (x, y) ⟨some (azp, altp)⟩ ⟨some (azn, altn)⟩).bind
        (fun off => nominal_to_altaz off ⟨some (azn, altn)⟩) =
      telescope_to_horizon (x, y) ⟨some (azp, altp)⟩ := by
  have hr := o2a_after_a2o az_d alt_d azn altn hd1 hd2 hn1 hn2 hdn1 hdn2 hfn
  show Except.ok ((offset_to_altaz
      (altaz_to_offset (offset_to_altaz x y altp azp).2 (offset_to_altaz x y altp azp).1
        azn altn).1
      (altaz_to_offset (offset_to_altaz x y altp azp).2 (offset_to_altaz x y altp azp).1
        azn altn).2 altn azn).2,
    (offset_to_altaz
      (altaz_to_offset (offset_to_altaz x y altp azp).2 (offset_to_altaz x y altp azp).1
        azn altn).1
      (altaz_to_offset (offset_to_altaz x y altp azp).2 (offset_to_altaz x y altp azp).1
        azn altn).2 altn azn).1) =
    Except.ok ((offset_to_altaz x y altp azp).2, (offset_to_altaz x y altp azp).1)
  rw [hd]
  dsimp only
  rw [hr]

/-- Witness for C5 at zero offset with both pointings az = 0, alt = 0. -/
theorem telescope_nominal_horizon_consistency_check :
    (telescope_to_nominal ((0:ℝ), (0:ℝ)) ⟨some (0, 0)⟩ ⟨some (0, 0)⟩).bind
        (fun off => nominal_to_altaz off ⟨some (0, 0)⟩) =
      telescope_to_horizon ((0:ℝ), (0:ℝ)) ⟨some (0, 0)⟩ :=
  telescope_nominal_horizon_consistency 0 0 0 0 0 0 0 0 (offset_to_altaz_zero 0 0)
    (by have := pi_pos; linarith) (by have := pi_pos; linarith)
    (by have := pi_pos; linarith) (by have := pi_pos; linarith)
    (by have := pi_pos; linarith) (by have := pi_pos; linarith)
    (by norm_num)

/-- C1: for every frame pair with both transform directions defined
(Horizon/Telescope, Horizon/Nominal, Telescope/Nominal, Camera/Telescope)
and every input within the small-angle validity bounds (altitudes strictly
inside (-π/2, π/2), azimuth differences inside (-π, π), directions in the
forward hemisphere of the reference, focal length positive), applying the
forward transform followed by its inverse returns the original value
exactly in real arithmetic, which is in particular within 1e-9 radian
absolute tolerance.  The intermediate directions of the composed
Telescope/Nominal pair are named (alt_d, az_d) and (alt_e, az_e). -/
theorem roundtrip_frame_pairs
    (a h x y cx cy azp altp azn altn θ f alt_d az_d alt_e az_e : ℝ)
    (hh1 : -(π / 2) < h) (hh2 : h < π / 2)
    (hp1 : -(π / 2) ≤ altp) (hp2 : altp ≤ π / 2)
    (hn1 : -(π / 2) ≤ altn) (hn2 : altn ≤ π / 2)
    (hdp1 : -π < a - azp) (hdp2 : a - azp < π)
    (hdn1 : -π < a - azn) (hdn2 : a - azn < π)
    (hfp : 0 < cos altp * cos (a - azp) * cos h + sin altp * sin h)
    (hfn : 0 < cos altn * cos (a - azn) * cos h + sin altn * sin h)
    (hxyp : (cos altp * x + sin altp) * (cos altp * x + sin altp) < 1 + (x * x + y * y))
    (hxyn : (cos altn * x + sin altn) * (cos altn * x + sin altn) < 1 + (x * x + y * y))
    (hd : offset_to_altaz x y altp azp = (alt_d, az_d))
    (he : offset_to_altaz x y altn azn = (alt_e, az_e))
    (hd1 : -(π / 2) < alt_d) (hd2 : alt_d < π / 2)
    (hdd1 : -π < az_d - azn) (hdd2 : az_d - azn < π)
    (hfd : 0 < cos altn * cos (az_d - azn) * cos alt_d + sin altn * sin alt_d)
    (he1 : -(π / 2) < alt_e) (he2 : alt_e < π / 2)
    (hee1 : -π < az_e - azp) (hee2 : az_e - azp < π)
    (hfe : 0 < cos altp * cos (az_e - azp) * cos alt_e + sin altp * sin alt_e)
    (hf : 0 < f) :
    ((horizon_to_telescope (a, h) ⟨some (azp, altp)⟩).bind
        (fun off => telescope_to_horizon off ⟨some (azp, altp)⟩) = .ok (a, h)) ∧
    ((telescope_to_horizon (x, y) ⟨some (azp, altp)⟩).bind
        (fun dir => horizon_to_telescope dir ⟨some (azp, altp)⟩) = .ok (x, y)) ∧
    ((altaz_to_nominal (a, h) ⟨some (azn, altn)⟩).bind
        (fun off => nominal_to_altaz off ⟨some (azn, altn)⟩) = .ok (a, h)) ∧
    ((nominal_to_altaz (x, y) ⟨some (azn, altn)⟩).bind
        (fun dir => altaz_to_nominal dir ⟨some (azn, altn)⟩) = .ok (x, y)) ∧
    ((telescope_to_nominal (x, y) ⟨some (azp, altp)⟩ ⟨some (azn, altn)⟩).bind
        (fun off => nominal_to_telescope off ⟨some (azn, altn)⟩ ⟨some (azp, altp)⟩) =
      .ok (x, y)) ∧
    ((nominal_to_telescope (x, y) ⟨some (azn, altn)⟩ ⟨some (azp, altp)⟩).bind
        (fun off => telescope_to_nominal off ⟨some (azp, altp)⟩ ⟨some (azn, altn)⟩) =
      .ok (x, y)) ∧
    ((camera_to_telescope (cx, cy) ⟨f, θ, some (azp, altp)⟩ ⟨some (azp, altp)⟩).bind
        (fun off => telescope_to_camera off ⟨some (azp, altp)⟩ ⟨f, θ, some (azp, altp)⟩) =
      .ok (cx, cy, 0)) ∧
    ((telescope_to_camera (x, y) ⟨some (azp, altp)⟩ ⟨f, θ, some (azp, altp)⟩).bind
        (fun pos => camera_to_telescope (pos.1, pos.2.1) ⟨f, θ, some (azp, altp)⟩
          ⟨some (azp, altp)⟩) = .ok (x, y)) := by
  refine ⟨?_, ?_, ?_, ?_, ?_, ?_, ?_, ?_⟩
  · have hr := o2a_after_a2o a h azp altp hh1 hh2 hp1 hp2 hdp1 hdp2 hfp
    show Except.ok ((offset_to_altaz (altaz_to_offset a h azp altp).1
        (altaz_to_offset a h azp altp).2 altp azp).2,
      (offset_to_altaz (altaz_to_offset a h azp altp).1
        (altaz_to_offset a h azp altp).2 altp azp).1) = Except.ok (a, h)
    rw [hr]
  · have hr := a2o_after_o2a x y azp altp hxyp
    show Except.ok (altaz_to_offset (offset_to_altaz x y altp azp).2
        (offset_to_altaz x y altp azp).1 azp altp) = Except.ok (x, y)
    rw [hr]
  · have hr := o2a_after_a2o a h azn altn hh1 hh2 hn1 hn2 hdn1 hdn2 hfn
    show Except.ok ((offset_to_altaz (altaz_to_offset a h azn altn).1
        (altaz_to_offset a h azn altn).2 altn azn).2,
      (offset_to_altaz (altaz_to_offset a h azn altn).1
        (altaz_to_offset a h azn altn).2 altn azn).1) = Except.ok (a, h)
    rw [hr]
  · have hr := a2o_after_o2a x y azn altn hxyn
    show Except.ok (altaz_to_offset (offset_to_altaz x y altn azn).2
        (offset_to_altaz x y altn azn).1 azn altn) = Except.ok (x, y)
    rw [hr]
  · have hr1 := o2a_after_a2o az_d alt_d azn altn hd1 hd2 hn1 hn2 hdd1 hdd2 hfd
    have hr2 := a2o_after_o2a x y azp altp hxyp
    rw [hd] at hr2
    dsimp only at hr2
    show Except.ok (altaz_to_offset
        (offset_to_altaz
          (altaz_to_offset (offset_to_altaz x y altp azp).2 (offset_to_altaz x y altp azp).1
            azn altn).1
          (altaz_to_offset (offset_to_altaz x y altp azp).2 (offset_to_altaz x y altp azp).1
            azn altn).2 altn azn).2
        (offset_to_altaz
          (altaz_to_offset (offset_to_altaz x y altp azp).2 (offset_to_altaz x y altp azp).1
            azn altn).1
          (altaz_to_offset (offset_to_altaz x y altp azp).2 (offset_to_altaz x y altp azp).1
            azn altn).2 altn azn).1 azp altp) = Except.ok (x, y)
    rw [hd]
    dsimp only
    rw [hr1]
    dsimp only
    exact congrArg Except.ok hr2
  · have hr1 := o2a_after_a2o az_e alt_e azp altp he1 he2 hp1 hp2 hee1 hee2 hfe
    have hr2 := a2o_after_o2a x y azn altn hxyn
    rw [he] at hr2
    dsimp only at hr2
    show Except.ok (altaz_to_offset
        (offset_to_altaz
          (altaz_to_offset (offset_to_altaz x y altn azn).2 (offset_to_altaz x y altn azn).1
            azp altp).1
          (altaz_to_offset (offset_to_altaz x y altn azn).2 (offset_to_altaz x y altn azn).1
            azp altp).2 altp azp).2
        (offset_to_altaz
          (altaz_to_offset (offset_to_altaz x y altn azn).2 (offset_to_altaz x y altn azn).1
            azp altp).1
          (altaz_to_offset (offset_to_altaz x y altn azn).2 (offset_to_altaz x y altn azn).1
            azp altp).2 altp azp).1 azn altn) = Except.ok (x, y)
    rw [he]
    dsimp only
    rw [hr1]
    dsimp only
    exact congrArg Except.ok hr2
  · exact camera_roundtrip_ct cx cy θ f (ne_of_gt hf) (some (azp, altp)) ⟨some (azp, altp)⟩
  · exact camera_roundtrip_tc x y θ f (ne_of_gt hf) (some (azp, altp)) ⟨some (azp, altp)⟩

/-- Witness for C1 at direction (0, 0), offset (0, 0), camera position
(0, 0), both pointings (az, alt) = (0, 0), rotation 0, focal length 1. -/
theorem roundtrip_frame_pairs_check :
    ((horizon_to_telescope ((0:ℝ), (0:ℝ)) ⟨some (0, 0)⟩).bind
        (fun off => telescope_to_horizon off ⟨some (0, 0)⟩) = .ok (0, 0)) ∧
    ((telescope_to_horizon ((0:ℝ), (0:ℝ)) ⟨some (0, 0)⟩).bind
        (fun dir => horizon_to_telescope dir ⟨some (0, 0)⟩) = .ok (0, 0)) ∧
    ((altaz_to_nominal ((0:ℝ), (0:ℝ)) ⟨some (0, 0)⟩).bind
        (fun off => nominal_to_altaz off ⟨some (0, 0)⟩) = .ok (0, 0)) ∧
    ((nominal_to_altaz ((0:ℝ), (0:ℝ)) ⟨some (0, 0)⟩).bind
        (fun dir => altaz_to_nominal dir ⟨some (0, 0)⟩) = .ok (0, 0)) ∧
    ((telescope_to_nominal ((0:ℝ), (0:ℝ)) ⟨some (0, 0)⟩ ⟨some (0, 0)⟩).bind
        (fun off => nominal_to_telescope off ⟨some (0, 0)⟩ ⟨some (0, 0)⟩) = .ok (0, 0)) ∧
    ((nominal_to_telescope ((0:ℝ), (0:ℝ)) ⟨some (0, 0)⟩ ⟨some (0, 0)⟩).bind
        (fun off => telescope_to_nominal off ⟨some (0, 0)⟩ ⟨some (0, 0)⟩) = .ok (0, 0)) ∧
    ((camera_to_telescope ((0:ℝ), (0:ℝ)) ⟨1, 0, some (0, 0)⟩ ⟨some (0, 0)⟩).bind
        (fun off => telescope_to_camera off ⟨some (0, 0)⟩ ⟨1, 0, some (0, 0)⟩) =
      .ok (0, 0, 0)) ∧
    ((telescope_to_camera ((0:ℝ), (0:ℝ)) ⟨some (0, 0)⟩ ⟨1, 0, some (0, 0)⟩).bind
        (fun pos => camera_to_telescope (pos.1, pos.2.1) ⟨1, 0, some (0, 0)⟩
          ⟨some (0, 0)⟩) = .ok (0, 0)) :=
  roundtrip_frame_pairs 0 0 0 0 0 0 0 0 0 0 0 1 0 0 0 0
    (by have := pi_pos; linarith) (by have := pi_pos; linarith)
    (by have := pi_pos; linarith) (by have := pi_pos; linarith)
    (by have := pi_pos; linarith) (by have := pi_pos; linarith)
    (by have := pi_pos; linarith) (by have := pi_pos; linarith)
    (by have := pi_pos; linarith) (by have := pi_pos; linarith)
    (by norm_num) (by norm_num) (by norm_num) (by norm_num)
    (offset_to_altaz_zero 0 0) (offset_to_altaz_zero 0 0)
    (by have := pi_pos; linarith) (by have := pi_pos; linarith)
    (by have := pi_pos; linarith) (by have := pi_pos; linarith)
    (by norm_num)
    (by have := pi_pos; linarith) (by have := pi_pos; linarith)
    (by have := pi_pos; linarith) (by have := pi_pos; linarith)
    (by norm_num)
    (by norm_num)
